import Mathlib

/-!
# Bootstrap launcher (`src/shim/main.cpp`)

A shallow embedding of the launcher that embeds the Python runtime, points it
at `venv`, and runs `main.py`.

The launcher is a straight-line sequence of calls into the C API of the
embedded runtime and the C library.  Those calls are external; what they
answer is given by an `Outcomes` record (one field per call whose answer the
launcher looks at), and every call is appended to a trace of `Event`s in the
order the C++ code performs it.  C++ exceptions are an explicit `thrown`
result which keeps the trace recorded so far.

Every external call returns to the launcher, with one exception: `PyErr_Print`
called on a runtime that `Py_Finalize` has torn down.  That call reads the
current thread state, which is gone by then, and the process dies inside it;
this is the `killed` result, after which nothing more happens and `main`
returns no value.  It is the only runtime call the source makes after
`Py_Finalize`.  What the script itself prints, and what `PyErr_Print` prints,
is not the launcher's own output and is not part of `stdout_text`.

`argc` and `argv` are passed around by the source but never read; the
embedding leaves them out.  The C function `_Py_fopen_obj` is written
`Py_fopen_obj`, since a leading underscore marks an internal name.
-/

namespace Shim

/-! ## Data model -/

/-- Answers of the external calls the launcher depends on. -/
structure Outcomes where
  /-- `PyConfig_SetBytesString(&config, &config.executable, ...)` gave a
  status that is not an exception. -/
  executable_ok : Bool
  /-- `PyConfig_SetBytesString(&config, &config.home, ...)` gave a status
  that is not an exception. -/
  home_ok : Bool
  /-- `Py_InitializeFromConfig(&config)` initialised the runtime. -/
  init_ok : Bool
  /-- `_Py_fopen_obj(obj, "rb")` gave a non-NULL `FILE *`. -/
  fopen_ok : Bool
  /-- The `int` returned by `PyRun_SimpleFile(fp, fname)`. -/
  run_status : Int
  deriving DecidableEq, Repr

/-- The two `PyConfig` fields the launcher sets. -/
inductive ConfigField where
  | executable
  | home
  deriving DecidableEq, Repr

/-- One external call, with the arguments the source passes and, where the
source or the runtime's lifecycle depends on it, the answer it got. -/
inductive Event where
  | PyConfig_InitIsolatedConfig
  | PyConfig_SetBytesString (field : ConfigField) (value : String) (accepted : Bool)
  | Py_InitializeFromConfig (succeeded : Bool)
  | PyConfig_Clear
  | Py_BuildValue (format : String) (arg : String)
  | Py_fopen_obj (mode : String) (opened : Bool)
  | PyRun_SimpleFile (fname : String) (status : Int)
  | fclose
  | Py_Finalize
  | PyErr_Print
  /-- A write of `text` to `std::cout` by the launcher itself. -/
  | cout (text : String)
  deriving DecidableEq, Repr

/-- A C++ exception in flight.  The source only ever writes
`throw std::runtime_error(msg)`; `non_std` stands for anything not derived
from `std::exception`, which is what `catch (...)` in `main` is for. -/
inductive Exn where
  | runtime_error (what : String)
  | non_std
  deriving DecidableEq, Repr

/-- How a C++ function call ends: it returns a value, an exception leaves it,
or the process dies inside it and control never comes back. -/
inductive Completion (α : Type) where
  | returned (value : α)
  | thrown (e : Exn)
  | killed
  deriving DecidableEq, Repr

/-- A C++ function body: from the trace so far to the trace afterwards and
the way the body ended. -/
def Prog (α : Type) : Type := List Event → List Event × Completion α

instance : Monad Prog where
  pure a := fun t => (t, .returned a)
  bind m f := fun t =>
    match m t with
    | (t1, .returned a) => f a t1
    | (t1, .thrown e) => (t1, .thrown e)
    | (t1, .killed) => (t1, .killed)

/-- Perform an external call: record it. -/
def call (e : Event) : Prog Unit := fun t => (t ++ [e], .returned ())

/-- The statement `throw std::runtime_error(what);`. -/
def throw_runtime_error {α : Type} (what : String) : Prog α :=
  fun t => (t, .thrown (.runtime_error what))

/-! ## External calls -/

/-- A `PyStatus`, as far as `PyStatus_Exception` looks at it. -/
structure PyStatus where
  is_exception : Bool
  deriving DecidableEq, Repr

/-- The C API predicate `PyStatus_Exception(status)`. -/
def PyStatus_Exception (status : PyStatus) : Bool := status.is_exception

/-- The call `PyConfig_SetBytesString(&config, &config.<field>, value)`. -/
def PyConfig_SetBytesString (o : Outcomes) (field : ConfigField) (value : String) :
    Prog PyStatus := fun t =>
  let accepted := match field with
    | .executable => o.executable_ok
    | .home => o.home_ok
  (t ++ [.PyConfig_SetBytesString field value accepted], .returned ⟨!accepted⟩)

/-- The call `Py_InitializeFromConfig(&config)`. -/
def Py_InitializeFromConfig (o : Outcomes) : Prog PyStatus := fun t =>
  (t ++ [.Py_InitializeFromConfig o.init_ok], .returned ⟨!o.init_ok⟩)

/-- The call `_Py_fopen_obj(obj, mode)`; the result says whether the `FILE *`
is non-NULL. -/
def Py_fopen_obj (o : Outcomes) (mode : String) : Prog Bool := fun t =>
  (t ++ [.Py_fopen_obj mode o.fopen_ok], .returned o.fopen_ok)

/-- The call `PyRun_SimpleFile(fp, fname)`. -/
def PyRun_SimpleFile (o : Outcomes) (fname : String) : Prog Int := fun t =>
  (t ++ [.PyRun_SimpleFile fname o.run_status], .returned o.run_status)

/-- The embedded runtime as the calls so far have left it. -/
inductive Runtime where
  | fresh
  | live
  | torn_down
  deriving DecidableEq, Repr

/-- The effect of one call on the runtime: a successful
`Py_InitializeFromConfig` makes it live, `Py_Finalize` tears a live runtime
down and does nothing to one that never initialised. -/
def Runtime.step : Runtime → Event → Runtime
  | _, .Py_InitializeFromConfig true => .live
  | .live, .Py_Finalize => .torn_down
  | s, _ => s

/-- The runtime after the calls of a trace. -/
def runtime_after (t : List Event) : Runtime := t.foldl Runtime.step .fresh

/-- The call `PyErr_Print()`.  On a torn-down runtime the call is made and
the process dies inside it; otherwise it returns. -/
def PyErr_Print : Prog Unit := fun t =>
  if runtime_after t = .torn_down then (t ++ [.PyErr_Print], .killed)
  else (t ++ [.PyErr_Print], .returned ())

/-! ## The launcher -/

/-- The function `init_python` of the source (lines 8-30). -/
def init_python (o : Outcomes) : Prog Int := do
  let executable := "venv/bin/python"
  let home := "venv"
  call .PyConfig_InitIsolatedConfig
  let status ← PyConfig_SetBytesString o .executable executable
  if PyStatus_Exception status then
    throw_runtime_error "Failed to set executable venv"
  let status ← PyConfig_SetBytesString o .home home
  if PyStatus_Exception status then
    throw_runtime_error "Failed to set executable venv"
  -- the status `Py_InitializeFromConfig` returns is dropped by the source
  let _ ← Py_InitializeFromConfig o
  call .PyConfig_Clear
  return 0

/-- The function `init_main` of the source (lines 32-48). -/
def init_main (o : Outcomes) : Prog Int := do
  let fname := "main.py"
  call (.Py_BuildValue "s" fname)
  let fp ← Py_fopen_obj o "rb"
  if fp = false then
    throw_runtime_error "Failed to open main.py"
  let ret ← PyRun_SimpleFile o fname
  call .fclose
  call .Py_Finalize
  if ret ≠ 0 then
    PyErr_Print
    throw_runtime_error "Failed to run main.py"
  return 0

/-- The function `run` of the source (lines 50-64). -/
def run (o : Outcomes) : Prog Int := do
  let ret ← init_python o
  if ret ≠ 0 then
    throw_runtime_error "Failed to initialize python"
  let ret ← init_main o
  if ret ≠ 0 then
    throw_runtime_error "Failed to initialize qt"
  return 0

/-- The function `main` of the source (lines 66-76): the trace after it and
the `int` it returns, `none` when the process died before `main` could
return.  `ret` starts at `0`, is assigned only when `run` returns, and
neither handler touches it. -/
def main (o : Outcomes) (t : List Event) : List Event × Option Int :=
  let ret : Int := 0
  match run o t with
  | (t1, .returned r) => (t1, some r)
  | (t1, .thrown (.runtime_error what)) => (t1 ++ [.cout what, .cout "\n"], some ret)
  | (t1, .thrown .non_std) =>
      (t1 ++ [.cout "Failed to parse exception", .cout "\n"], some ret)
  | (t1, .killed) => (t1, none)

/-! ## Observations of one process run -/

/-- Every external call of one process run, in order. -/
def process_trace (o : Outcomes) : List Event := (main o []).1

/-- The value `main` returns, which is the exit code of the process; `none`
when `main` does not return. -/
def exit_code (o : Outcomes) : Option Int := (main o []).2

/-- The text written to `std::cout` by the launcher's own statements. -/
def stdout_text : List Event → String
  | [] => ""
  | .cout text :: rest => text ++ stdout_text rest
  | _ :: rest => stdout_text rest

/-- What the launcher itself writes to standard output in one process run. -/
def launcher_stdout (o : Outcomes) : String := stdout_text (process_trace o)

/-! ## The lifecycle of the embedded runtime -/

/-- The calls that need a live interpreter: `Py_BuildValue`, `_Py_fopen_obj`,
`PyRun_SimpleFile` and `PyErr_Print`. -/
def needs_live_runtime : Event → Bool
  | .Py_BuildValue _ _ => true
  | .Py_fopen_obj _ _ => true
  | .PyRun_SimpleFile _ _ => true
  | .PyErr_Print => true
  | _ => false

/-- Where the runtime stands while a trace is replayed: whether a
`Py_InitializeFromConfig` has succeeded, and whether `Py_Finalize` has been
called. -/
structure RuntimeState where
  initialized : Bool
  finalized : Bool
  deriving DecidableEq, Repr

/-- Replay a trace against the lifecycle discipline: a call that needs a live
interpreter is allowed only after a successful `Py_InitializeFromConfig` and
before `Py_Finalize`, and `Py_Finalize` is allowed only once. -/
def lifecycle_from : RuntimeState → List Event → Bool
  | _, [] => true
  | s, .Py_InitializeFromConfig succeeded :: rest =>
      lifecycle_from { s with initialized := s.initialized || succeeded } rest
  | s, .Py_Finalize :: rest =>
      !s.finalized && lifecycle_from { s with finalized := true } rest
  | s, e :: rest =>
      (!needs_live_runtime e || (s.initialized && !s.finalized)) && lifecycle_from s rest

/-- The lifecycle discipline holds of a whole process trace. -/
def lifecycle_ok (t : List Event) : Bool :=
  lifecycle_from { initialized := false, finalized := false } t

/-! ## Named inputs -/

/-- Every external call succeeds and the script ends with status 0. -/
def all_ok : Outcomes :=
  { executable_ok := true, home_ok := true, init_ok := true, fopen_ok := true, run_status := 0 }

/-- The executable path is rejected by `PyConfig_SetBytesString`. -/
def executable_rejected : Outcomes := { all_ok with executable_ok := false }

/-- The home path is rejected by `PyConfig_SetBytesString`. -/
def home_rejected : Outcomes := { all_ok with home_ok := false }

/-- The runtime does not initialise (for instance, no usable `venv`). -/
def init_fails : Outcomes := { all_ok with init_ok := false }

/-- The file `main.py` cannot be opened. -/
def main_py_missing : Outcomes := { all_ok with fopen_ok := false }

/-- The script `main.py` ends with an unhandled error: `PyRun_SimpleFile`
answers -1. -/
def script_fails : Outcomes := { all_ok with run_status := -1 }

/-! ## Closed forms of the two steps -/

theorem Prog.bind_apply {α β : Type} (m : Prog α) (f : α → Prog β) (t : List Event) :
    (m >>= f) t =
      match m t with
      | (t1, .returned a) => f a t1
      | (t1, .thrown e) => (t1, .thrown e)
      | (t1, .killed) => (t1, .killed) := rfl

theorem Prog.pure_apply {α : Type} (a : α) (t : List Event) :
    (pure a : Prog α) t = (t, .returned a) := rfl

/-- What `init_python` does, by the answers of the two path settings. -/
theorem init_python_eq (o : Outcomes) (t : List Event) :
    init_python o t =
      if o.executable_ok = false then
        (t ++ [.PyConfig_InitIsolatedConfig,
               .PyConfig_SetBytesString .executable "venv/bin/python" false],
          .thrown (.runtime_error "Failed to set executable venv"))
      else if o.home_ok = false then
        (t ++ [.PyConfig_InitIsolatedConfig,
               .PyConfig_SetBytesString .executable "venv/bin/python" true,
               .PyConfig_SetBytesString .home "venv" false],
          .thrown (.runtime_error "Failed to set executable venv"))
      else
        (t ++ [.PyConfig_InitIsolatedConfig,
               .PyConfig_SetBytesString .executable "venv/bin/python" true,
               .PyConfig_SetBytesString .home "venv" true,
               .Py_InitializeFromConfig o.init_ok,
               .PyConfig_Clear],
          .returned 0) := by
  obtain ⟨e, h, i, f, r⟩ := o
  cases e <;> cases h <;>
    simp [init_python, Prog.bind_apply, Prog.pure_apply, call, throw_runtime_error,
      PyConfig_SetBytesString, Py_InitializeFromConfig, PyStatus_Exception]


/-- What `init_main` does, by the answer of the open, the status of the
script run and, on a non-zero status, the runtime `PyErr_Print` finds. -/
theorem init_main_eq (o : Outcomes) (t : List Event) :
    init_main o t =
      if o.fopen_ok = false then
        (t ++ [.Py_BuildValue "s" "main.py", .Py_fopen_obj "rb" false],
          .thrown (.runtime_error "Failed to open main.py"))
      else if o.run_status ≠ 0 then
        if runtime_after
            (t ++ [.Py_BuildValue "s" "main.py", .Py_fopen_obj "rb" true,
                   .PyRun_SimpleFile "main.py" o.run_status, .fclose, .Py_Finalize])
            = .torn_down then
          (t ++ [.Py_BuildValue "s" "main.py", .Py_fopen_obj "rb" true,
                 .PyRun_SimpleFile "main.py" o.run_status, .fclose, .Py_Finalize,
                 .PyErr_Print],
            .killed)
        else
          (t ++ [.Py_BuildValue "s" "main.py", .Py_fopen_obj "rb" true,
                 .PyRun_SimpleFile "main.py" o.run_status, .fclose, .Py_Finalize,
                 .PyErr_Print],
            .thrown (.runtime_error "Failed to run main.py"))
      else
        (t ++ [.Py_BuildValue "s" "main.py", .Py_fopen_obj "rb" true,
               .PyRun_SimpleFile "main.py" o.run_status, .fclose, .Py_Finalize],
          .returned 0) := by
  obtain ⟨e, h, i, f, r⟩ := o
  by_cases hr : r = 0 <;> cases f
  · simp [init_main, Prog.bind_apply, Prog.pure_apply, call, throw_runtime_error,
      Py_fopen_obj, PyRun_SimpleFile, hr]
  · simp [init_main, Prog.bind_apply, Prog.pure_apply, call, throw_runtime_error,
      Py_fopen_obj, PyRun_SimpleFile, hr]
  · simp [init_main, Prog.bind_apply, Prog.pure_apply, call, throw_runtime_error,
      Py_fopen_obj, PyRun_SimpleFile, hr]
  · by_cases hk : runtime_after
        (t ++ [.Py_BuildValue "s" "main.py", .Py_fopen_obj "rb" true,
               .PyRun_SimpleFile "main.py" r, .fclose, .Py_Finalize]) = .torn_down <;>
      simp [init_main, Prog.bind_apply, Prog.pure_apply, call, throw_runtime_error,
        Py_fopen_obj, PyRun_SimpleFile, PyErr_Print, hr, hk]

/-! ## Exit code -/

/-- C1 (the code departs from the claim): the claim asks for a non-zero exit
code whenever a step fails.  Evaluated on three failing runs (executable path
rejected, home path rejected, `main.py` cannot be opened) the launcher prints
its message and `main` returns 0.  On the fourth (the script run answers -1)
the process dies in `PyErr_Print`: `main` returns no value at all and the
launcher prints nothing. -/
theorem exit_code_zero_on_failed_steps :
    (exit_code executable_rejected = some 0 ∧
      launcher_stdout executable_rejected = "Failed to set executable venv\n") ∧
    (exit_code home_rejected = some 0 ∧
      launcher_stdout home_rejected = "Failed to set executable venv\n") ∧
    (exit_code main_py_missing = some 0 ∧
      launcher_stdout main_py_missing = "Failed to open main.py\n") ∧
    (exit_code script_fails = none ∧
      launcher_stdout script_fails = "") := by
  decide

/-- C2: when both path settings are accepted, the runtime initialises,
`main.py` opens and the script run returns status 0, then `main` returns 0,
the launcher writes nothing to standard output (no `std::cout` write occurs
at all) and `PyErr_Print` is not called. -/
theorem success_exit_zero_silent (o : Outcomes) (hexe : o.executable_ok = true)
    (hhome : o.home_ok = true) (hinit : o.init_ok = true) (hopen : o.fopen_ok = true)
    (hrun : o.run_status = 0) :
    exit_code o = some 0 ∧ launcher_stdout o = "" ∧
    (∀ text, Event.cout text ∉ process_trace o) ∧
    Event.PyErr_Print ∉ process_trace o := by
  obtain ⟨e, h, i, f, r⟩ := o
  simp only at hexe hhome hinit hopen hrun
  subst hexe hhome hinit hopen hrun
  simp [exit_code, launcher_stdout, process_trace, main, run, Prog.bind_apply,
    Prog.pure_apply, init_python_eq, init_main_eq, throw_runtime_error, stdout_text]

/-- The successful run at `all_ok`. -/
theorem success_exit_zero_silent_witness :
    exit_code all_ok = some 0 ∧ launcher_stdout all_ok = "" ∧
    (∀ text, Event.cout text ∉ process_trace all_ok) ∧
    Event.PyErr_Print ∉ process_trace all_ok :=
  success_exit_zero_silent all_ok rfl rfl rfl rfl rfl

/-! ## Configure Runtime -/

/-- C3 (the code departs from the claim): the claim has `init_python` fail
when `Py_InitializeFromConfig` fails.  On the run where both paths are
accepted and initialisation fails, `init_python` returns 0, `main.py` is then
opened and run, nothing is printed and the exit code is 0. -/
theorem init_failure_goes_unreported :
    init_python init_fails [] =
      ([.PyConfig_InitIsolatedConfig,
        .PyConfig_SetBytesString .executable "venv/bin/python" true,
        .PyConfig_SetBytesString .home "venv" true,
        .Py_InitializeFromConfig false,
        .PyConfig_Clear], .returned 0) ∧
    process_trace init_fails =
      [.PyConfig_InitIsolatedConfig,
       .PyConfig_SetBytesString .executable "venv/bin/python" true,
       .PyConfig_SetBytesString .home "venv" true,
       .Py_InitializeFromConfig false,
       .PyConfig_Clear,
       .Py_BuildValue "s" "main.py",
       .Py_fopen_obj "rb" true,
       .PyRun_SimpleFile "main.py" 0,
       .fclose,
       .Py_Finalize] ∧
    launcher_stdout init_fails = "" ∧
    exit_code init_fails = some 0 := by
  decide

/-! ## Run Entry Script -/

/-- C4 (the code departs from the claim): the claim has the runtime finalised
on every exit path of `init_main`.  On the run where the runtime initialises
and `main.py` cannot be opened, `init_main` is left by the exception right
after the open, and the whole process trace has a successful
`Py_InitializeFromConfig` and no `Py_Finalize`. -/
theorem open_failure_skips_finalize :
    init_main main_py_missing [] =
      ([.Py_BuildValue "s" "main.py", .Py_fopen_obj "rb" false],
        .thrown (.runtime_error "Failed to open main.py")) ∧
    process_trace main_py_missing =
      [.PyConfig_InitIsolatedConfig,
       .PyConfig_SetBytesString .executable "venv/bin/python" true,
       .PyConfig_SetBytesString .home "venv" true,
       .Py_InitializeFromConfig true,
       .PyConfig_Clear,
       .Py_BuildValue "s" "main.py",
       .Py_fopen_obj "rb" false,
       .cout "Failed to open main.py",
       .cout "\n"] ∧
    Event.Py_InitializeFromConfig true ∈ process_trace main_py_missing ∧
    Event.Py_Finalize ∉ process_trace main_py_missing := by
  decide

/-- C5 (the code departs from the claim): the claim has `init_main` fail with
an error after the runtime's error report, and the launcher print the line
"Failed to run main.py".  On the run where everything succeeds and the script
run answers -1, `init_main` calls `fclose`, `Py_Finalize` and then
`PyErr_Print` on the runtime it has just torn down: the process dies in that
call, no exception leaves `init_main`, the launcher prints nothing and `main`
does not return. -/
theorem script_failure_kills_process :
    runtime_after
      [.PyConfig_InitIsolatedConfig,
       .PyConfig_SetBytesString .executable "venv/bin/python" true,
       .PyConfig_SetBytesString .home "venv" true,
       .Py_InitializeFromConfig true,
       .PyConfig_Clear,
       .Py_BuildValue "s" "main.py",
       .Py_fopen_obj "rb" true,
       .PyRun_SimpleFile "main.py" (-1),
       .fclose,
       .Py_Finalize] = .torn_down ∧
    init_main script_fails (init_python script_fails []).1 =
      ([.PyConfig_InitIsolatedConfig,
        .PyConfig_SetBytesString .executable "venv/bin/python" true,
        .PyConfig_SetBytesString .home "venv" true,
        .Py_InitializeFromConfig true,
        .PyConfig_Clear,
        .Py_BuildValue "s" "main.py",
        .Py_fopen_obj "rb" true,
        .PyRun_SimpleFile "main.py" (-1),
        .fclose,
        .Py_Finalize,
        .PyErr_Print], .killed) ∧
    (∀ text, Event.cout text ∉ process_trace script_fails) ∧
    launcher_stdout script_fails = "" ∧
    exit_code script_fails = none := by
  refine ⟨by decide, by decide, ?_, by decide, by decide⟩
  intro text
  have h : process_trace script_fails =
      [.PyConfig_InitIsolatedConfig,
       .PyConfig_SetBytesString .executable "venv/bin/python" true,
       .PyConfig_SetBytesString .home "venv" true,
       .Py_InitializeFromConfig true,
       .PyConfig_Clear,
       .Py_BuildValue "s" "main.py",
       .Py_fopen_obj "rb" true,
       .PyRun_SimpleFile "main.py" (-1),
       .fclose,
       .Py_Finalize,
       .PyErr_Print] := by decide
  simp [h]

/-- C6: when both paths are accepted and `main.py` cannot be opened,
`init_main` is left by the error "Failed to open main.py" right after the
open; no `PyRun_SimpleFile` and no `fclose` occurs in the whole run, and the
launcher's standard output is exactly the line "Failed to open main.py". -/
theorem open_failure_reported (o : Outcomes) (hexe : o.executable_ok = true)
    (hhome : o.home_ok = true) (hopen : o.fopen_ok = false) :
    (∀ t, init_main o t =
      (t ++ [.Py_BuildValue "s" "main.py", .Py_fopen_obj "rb" false],
        .thrown (.runtime_error "Failed to open main.py"))) ∧
    (∀ fname status, Event.PyRun_SimpleFile fname status ∉ process_trace o) ∧
    Event.fclose ∉ process_trace o ∧
    launcher_stdout o = "Failed to open main.py\n" := by
  obtain ⟨e, h, i, f, r⟩ := o
  simp only at hexe hhome hopen
  subst hexe hhome hopen
  simp [launcher_stdout, process_trace, main, run, Prog.bind_apply, Prog.pure_apply,
    init_python_eq, init_main_eq, throw_runtime_error, stdout_text]

/-- The missing script at `main_py_missing`. -/
theorem open_failure_reported_witness :
    main_py_missing.fopen_ok = false ∧
    launcher_stdout main_py_missing = "Failed to open main.py\n" :=
  ⟨rfl, (open_failure_reported main_py_missing rfl rfl rfl).2.2.2⟩

/-! ## Runtime lifecycle -/

/-- C8 (the code departs from the claim): the claim has every call that needs
a live interpreter made after a successful `Py_InitializeFromConfig` and
before `Py_Finalize`.  On the run where the script run answers -1,
`PyErr_Print` is called after `Py_Finalize`; on the run where initialisation
fails, `Py_BuildValue` and the calls after it are made with no successful
initialisation.  The replay of either trace fails; that of the successful run
passes. -/
theorem lifecycle_broken_on_script_failure :
    process_trace script_fails =
      [.PyConfig_InitIsolatedConfig,
       .PyConfig_SetBytesString .executable "venv/bin/python" true,
       .PyConfig_SetBytesString .home "venv" true,
       .Py_InitializeFromConfig true,
       .PyConfig_Clear,
       .Py_BuildValue "s" "main.py",
       .Py_fopen_obj "rb" true,
       .PyRun_SimpleFile "main.py" (-1),
       .fclose,
       .Py_Finalize,
       .PyErr_Print] ∧
    lifecycle_ok (process_trace script_fails) = false ∧
    lifecycle_ok (process_trace init_fails) = false ∧
    lifecycle_ok (process_trace all_ok) = true := by
  decide

/-! ## Standard output -/

/-- C9: for every combination of outcomes the launcher's standard output is
empty or exactly one of the lines "Failed to set executable venv", "Failed to
open main.py", "Failed to run main.py"; the messages "Failed to initialize
python", "Failed to initialize qt" and "Failed to parse exception" are never
written, `init_python` and `init_main` return only 0, the only exception that
leaves them or `run` is a `std::runtime_error`; and a rejected executable
path and a rejected home path give the same output. -/
theorem launcher_stdout_cases (o : Outcomes) :
    (launcher_stdout o = "" ∨
      launcher_stdout o = "Failed to set executable venv\n" ∨
      launcher_stdout o = "Failed to open main.py\n" ∨
      launcher_stdout o = "Failed to run main.py\n") ∧
    (Event.cout "Failed to initialize python" ∉ process_trace o ∧
      Event.cout "Failed to initialize qt" ∉ process_trace o ∧
      Event.cout "Failed to parse exception" ∉ process_trace o) ∧
    (∀ t, (init_python o t).2 = .returned 0 ∨
      (init_python o t).2 = .thrown (.runtime_error "Failed to set executable venv")) ∧
    (∀ t, (init_main o t).2 = .returned 0 ∨
      (init_main o t).2 = .thrown (.runtime_error "Failed to open main.py") ∨
      (init_main o t).2 = .thrown (.runtime_error "Failed to run main.py") ∨
      (init_main o t).2 = .killed) ∧
    (∀ t, (run o t).2 ≠ .thrown .non_std) ∧
    (∀ h i f r i' f' r',
      launcher_stdout ⟨false, h, i, f, r⟩ = "Failed to set executable venv\n" ∧
      launcher_stdout ⟨true, false, i', f', r'⟩ = "Failed to set executable venv\n") := by
  obtain ⟨e, h, i, f, r⟩ := o
  refine ⟨?_, ?_, ?_, ?_, ?_, ?_⟩
  · by_cases hr : r = 0 <;> cases e <;> cases h <;> cases f <;> cases i <;>
      simp [launcher_stdout, process_trace, main, run, Prog.bind_apply, Prog.pure_apply,
        init_python_eq, init_main_eq, throw_runtime_error, stdout_text, runtime_after,
        Runtime.step, hr]
  · by_cases hr : r = 0 <;> cases e <;> cases h <;> cases f <;> cases i <;>
      simp [process_trace, main, run, Prog.bind_apply, Prog.pure_apply,
        init_python_eq, init_main_eq, throw_runtime_error, runtime_after,
        Runtime.step, hr]
  · intro t
    cases e <;> cases h <;> simp [init_python_eq]
  · intro t
    by_cases hr : r = 0 <;> cases f <;> simp [init_main_eq, hr]
    split_ifs <;> simp
  · intro t
    by_cases hr : r = 0 <;> cases e <;> cases h <;> cases f <;>
      simp [run, Prog.bind_apply, Prog.pure_apply, init_python_eq, init_main_eq,
        throw_runtime_error, hr]
    split_ifs <;> simp
  · intro h i f r i' f' r'
    constructor
    · simp [launcher_stdout, process_trace, main, run, Prog.bind_apply,
        init_python_eq, stdout_text]
    · simp [launcher_stdout, process_trace, main, run, Prog.bind_apply,
        init_python_eq, stdout_text]

end Shim
